import Mathlib

/-! erzc: core types and program routines

A shallow embedding of `include/erzc/core/types.h`, `include/erzc/core/program.h`
and `src/core/program.c`.

Machine words are natural numbers; every cast to `uint32_t` and every unsigned
operation that can leave the 32-bit range is reduced modulo `2 ^ 32` explicitly.
-/

/-! ## Machine words -/

/-- The cast `(uint32_t)(x)`: reduction modulo `2 ^ 32`. -/
def uint32_t (x : Nat) : Nat := x % 2 ^ 32

/-- The largest 32-bit word, `UINT32_MAX` of `<stdint.h>`. -/
def UINT32_MAX : Nat := 2 ^ 32 - 1

/-! ## Configuration constants (`types.h`, lines 81-109) -/

/-- Number of instructions per line: `#define ERZC_WIDTH 12u`. -/
@[reducible] def ERZC_WIDTH : Nat := 12

/-- Number of lines in one program: `#define ERZC_HEIGHT 80u`. -/
@[reducible] def ERZC_HEIGHT : Nat := 80

/-- Number of instructions in one program: `(ERZC_WIDTH * ERZC_HEIGHT)`, an unsigned product. -/
@[reducible] def ERZC_SIZE : Nat := (ERZC_WIDTH * ERZC_HEIGHT) % 2 ^ 32

/-- Maximum number of named labels in a program: `#define ERZC_NAMED_LABEL_NUMBER 6u`. -/
@[reducible] def ERZC_NAMED_LABEL_NUMBER : Nat := 6

/-! ## Directions and pin sentinels (`types.h`, lines 114-144) -/

/-- Up, `0b0011`. -/
def ERZC_Direction_UP : Nat := 3

/-- Left, `0b1100`. -/
def ERZC_Direction_LEFT : Nat := 12

/-- Down, `0b0001`. -/
def ERZC_Direction_DOWN : Nat := 1

/-- Right, `0b0100`. -/
def ERZC_Direction_RIGHT : Nat := 4

/-- Pin does not exist. -/
def ERZC_PIN_NONE : Nat := 0

/-- Pin exists, `0b1010`. -/
def ERZC_PIN_SOME : Nat := 10

/-! ## Anonymous labels (`types.h`, lines 169-205) -/

/-- An anonymous label, `typedef uint32_t ERZC_Label`: a word below `2 ^ 32`. -/
abbrev ERZC_Label := Nat

/-- Quasi label for the end of execution: `((ERZC_Label)UINT32_MAX)`. -/
def ERZC_Label_END : ERZC_Label := uint32_t UINT32_MAX

/-- Quasi label for "not specified": `((ERZC_Label)UINT32_MAX - 1)`, an unsigned
subtraction. -/
def ERZC_Label_UNDEFINED : ERZC_Label := (uint32_t UINT32_MAX + (2 ^ 32 - 1)) % 2 ^ 32

/-- Minimum value of any quasi label. -/
def ERZC_Label_QUASI_MIN : ERZC_Label := ERZC_Label_UNDEFINED

/-- The check `((ERZC_Label)(label) >= ERZC_Label_QUASI_MIN)`. -/
def ERZC_Label_IsQuasi (label : Nat) : Bool :=
  decide (uint32_t label ≥ ERZC_Label_QUASI_MIN)

/-! ## Label coordinates (`types.h`, lines 207-224) -/

/-- The x coordinate of a label: `(((ERZC_Label)(label) & (0xFFFFu << 0)) >> 0)`. -/
def ERZC_Label_GetX (label : Nat) : Nat :=
  (uint32_t label &&& ((0xFFFF <<< 0) % 2 ^ 32)) >>> 0

/-- The y coordinate of a label: `(((ERZC_Label)(label) & (0xFFFF << 16)) >> 16)`. The mask
`0xFFFF << 16` is a shift of an `int`; it is taken as the 32-bit pattern `0xFFFF0000`, which
is also the word the conversion to `ERZC_Label` for the `&` yields. -/
def ERZC_Label_GetY (label : Nat) : Nat :=
  (uint32_t label &&& uint32_t ((0xFFFF <<< 16) % 2 ^ 32)) >>> 16

/-! ## Opcode packing (`types.h`, lines 226-281) -/

def __ERZC_OP_OK_RSHIFT : Nat := 0

def __ERZC_OP_OK_LABEL_RSHIFT : Nat := 8

def __ERZC_OP_ERR_RSHIFT : Nat := 16

def __ERZC_OP_NR_RSHIFT : Nat := 24

/-- The macro `(((uint32_t)(x) << 8) | (uint32_t)ERZC_PIN_SOME)` on 32-bit words. -/
def __ERZC_OP_OK_LABEL (x : Nat) : Nat :=
  ((uint32_t x <<< __ERZC_OP_OK_LABEL_RSHIFT) % 2 ^ 32) ||| uint32_t ERZC_PIN_SOME

/-- The macro `(((uint32_t)(nr) << 24) | ((uint32_t)(ok) << 0) | (((uint32_t)(err) << 16)))`
on 32-bit words. -/
def __ERZC_OP_BUILD (nr ok err : Nat) : Nat :=
  ((uint32_t nr <<< __ERZC_OP_NR_RSHIFT) % 2 ^ 32) |||
    ((uint32_t ok <<< __ERZC_OP_OK_RSHIFT) % 2 ^ 32) |||
    ((uint32_t err <<< __ERZC_OP_ERR_RSHIFT) % 2 ^ 32)

/-- The constant `((uint32_t)12)`: smallest number of a real opcode. -/
def __ERZC_OP_NR_REAL_MIN : Nat := uint32_t 12

/-- Direction of the ok out pin: `(((uint32_t)(op) & ((uint32_t)0xFFu << 0)) >> 0)`. -/
def ERZC_OP_GetOk (op : Nat) : Nat :=
  (uint32_t op &&& ((uint32_t 0xFF <<< 0) % 2 ^ 32)) >>> 0

/-- Index of the named label: `(((uint32_t)(op) & ((uint32_t)0xFFu << 8)) >> 8)`. -/
def ERZC_OP_GetOkLabel (op : Nat) : Nat :=
  (uint32_t op &&& ((uint32_t 0xFF <<< 8) % 2 ^ 32)) >>> 8

/-- Direction of the err out pin: `(((uint32_t)(op) & ((uint32_t)0xFFu << 16)) >> 16)`. -/
def ERZC_OP_GetErr (op : Nat) : Nat :=
  (uint32_t op &&& ((uint32_t 0xFF <<< 16) % 2 ^ 32)) >>> 16

/-- Opcode number: `(((uint32_t)(op) & ((uint32_t)0xFFu << 24)) >> 24)`. -/
def ERZC_OP_GetNr (op : Nat) : Nat :=
  (uint32_t op &&& ((uint32_t 0xFF <<< 24) % 2 ^ 32)) >>> 24

/-! ## The opcode enumerators (`types.h`, lines 294-524)

Each enumerator is its 32-bit value. Sums such as `__ERZC_OP_NR_REAL_MIN + 1u` are
unsigned and reduced modulo `2 ^ 32`. -/

def ERZC_OP_UNDF : Nat := __ERZC_OP_BUILD 0 ERZC_PIN_NONE ERZC_PIN_NONE

def ERZC_OP_EMPTY : Nat := __ERZC_OP_BUILD 1 ERZC_PIN_SOME ERZC_PIN_NONE

def ERZC_OP_PCW : Nat := __ERZC_OP_BUILD 2 ERZC_Direction_UP ERZC_PIN_NONE

def ERZC_OP_PCA : Nat := __ERZC_OP_BUILD 3 ERZC_Direction_LEFT ERZC_PIN_NONE

def ERZC_OP_PCS : Nat := __ERZC_OP_BUILD 4 ERZC_Direction_DOWN ERZC_PIN_NONE

def ERZC_OP_PCD : Nat := __ERZC_OP_BUILD 5 ERZC_Direction_RIGHT ERZC_PIN_NONE

def ERZC_OP_GO0 : Nat := __ERZC_OP_BUILD 6 (__ERZC_OP_OK_LABEL 0) ERZC_PIN_NONE

def ERZC_OP_GO1 : Nat := __ERZC_OP_BUILD 7 (__ERZC_OP_OK_LABEL 1) ERZC_PIN_NONE

def ERZC_OP_GO2 : Nat := __ERZC_OP_BUILD 8 (__ERZC_OP_OK_LABEL 2) ERZC_PIN_NONE

def ERZC_OP_GO3 : Nat := __ERZC_OP_BUILD 9 (__ERZC_OP_OK_LABEL 3) ERZC_PIN_NONE

def ERZC_OP_GO4 : Nat := __ERZC_OP_BUILD 10 (__ERZC_OP_OK_LABEL 4) ERZC_PIN_NONE

def ERZC_OP_GO5 : Nat := __ERZC_OP_BUILD 11 (__ERZC_OP_OK_LABEL 5) ERZC_PIN_NONE

def ERZC_OP_MOVE : Nat :=
  __ERZC_OP_BUILD __ERZC_OP_NR_REAL_MIN ERZC_Direction_RIGHT ERZC_Direction_DOWN

def ERZC_OP_DIG : Nat :=
  __ERZC_OP_BUILD ((__ERZC_OP_NR_REAL_MIN + 1) % 2 ^ 32) ERZC_Direction_RIGHT ERZC_Direction_DOWN

def ERZC_OP_MOVDG : Nat :=
  __ERZC_OP_BUILD ((__ERZC_OP_NR_REAL_MIN + 2) % 2 ^ 32) ERZC_Direction_RIGHT ERZC_Direction_DOWN

def ERZC_OP_RC045 : Nat :=
  __ERZC_OP_BUILD ((__ERZC_OP_NR_REAL_MIN + 3) % 2 ^ 32) ERZC_Direction_RIGHT ERZC_PIN_NONE

def ERZC_OP_RC090 : Nat :=
  __ERZC_OP_BUILD ((__ERZC_OP_NR_REAL_MIN + 4) % 2 ^ 32) ERZC_Direction_RIGHT ERZC_PIN_NONE

def ERZC_OP_RC135 : Nat :=
  __ERZC_OP_BUILD ((__ERZC_OP_NR_REAL_MIN + 5) % 2 ^ 32) ERZC_Direction_RIGHT ERZC_PIN_NONE

def ERZC_OP_RC180 : Nat :=
  __ERZC_OP_BUILD ((__ERZC_OP_NR_REAL_MIN + 6) % 2 ^ 32) ERZC_Direction_RIGHT ERZC_PIN_NONE

def ERZC_OP_CC045 : Nat :=
  __ERZC_OP_BUILD ((__ERZC_OP_NR_REAL_MIN + 7) % 2 ^ 32) ERZC_Direction_RIGHT ERZC_PIN_NONE

def ERZC_OP_CC090 : Nat :=
  __ERZC_OP_BUILD ((__ERZC_OP_NR_REAL_MIN + 8) % 2 ^ 32) ERZC_Direction_RIGHT ERZC_PIN_NONE

def ERZC_OP_CC135 : Nat :=
  __ERZC_OP_BUILD ((__ERZC_OP_NR_REAL_MIN + 9) % 2 ^ 32) ERZC_Direction_RIGHT ERZC_PIN_NONE

def ERZC_OP_SWLK : Nat :=
  __ERZC_OP_BUILD ((__ERZC_OP_NR_REAL_MIN + 10) % 2 ^ 32) ERZC_Direction_RIGHT ERZC_Direction_DOWN

def ERZC_OP_NWLK : Nat :=
  __ERZC_OP_BUILD ((__ERZC_OP_NR_REAL_MIN + 11) % 2 ^ 32) ERZC_Direction_RIGHT ERZC_Direction_DOWN

def ERZC_OP_SDIG : Nat :=
  __ERZC_OP_BUILD ((__ERZC_OP_NR_REAL_MIN + 12) % 2 ^ 32) ERZC_Direction_RIGHT ERZC_Direction_DOWN

def ERZC_OP_NDIG : Nat :=
  __ERZC_OP_BUILD ((__ERZC_OP_NR_REAL_MIN + 13) % 2 ^ 32) ERZC_Direction_RIGHT ERZC_Direction_DOWN

def ERZC_OP_SCRS : Nat :=
  __ERZC_OP_BUILD ((__ERZC_OP_NR_REAL_MIN + 14) % 2 ^ 32) ERZC_Direction_RIGHT ERZC_Direction_DOWN

def ERZC_OP_NCRS : Nat :=
  __ERZC_OP_BUILD ((__ERZC_OP_NR_REAL_MIN + 15) % 2 ^ 32) ERZC_Direction_RIGHT ERZC_Direction_DOWN

def ERZC_OP_SHND : Nat :=
  __ERZC_OP_BUILD ((__ERZC_OP_NR_REAL_MIN + 10) % 2 ^ 32) ERZC_Direction_RIGHT ERZC_Direction_DOWN

def ERZC_OP_NHND : Nat :=
  __ERZC_OP_BUILD ((__ERZC_OP_NR_REAL_MIN + 11) % 2 ^ 32) ERZC_Direction_RIGHT ERZC_Direction_DOWN

/-- The names of the enumerators of `enum __tagERZC_OP`, in declaration order. -/
inductive ERZC_OP where
  | UNDF | EMPTY | PCW | PCA | PCS | PCD
  | GO0 | GO1 | GO2 | GO3 | GO4 | GO5
  | MOVE | DIG | MOVDG
  | RC045 | RC090 | RC135 | RC180 | CC045 | CC090 | CC135
  | SWLK | NWLK | SDIG | NDIG | SCRS | NCRS | SHND | NHND
  deriving DecidableEq, Repr

/-- The 32-bit value of a named enumerator. -/
def ERZC_OP.value : ERZC_OP → Nat
  | .UNDF => ERZC_OP_UNDF
  | .EMPTY => ERZC_OP_EMPTY
  | .PCW => ERZC_OP_PCW
  | .PCA => ERZC_OP_PCA
  | .PCS => ERZC_OP_PCS
  | .PCD => ERZC_OP_PCD
  | .GO0 => ERZC_OP_GO0
  | .GO1 => ERZC_OP_GO1
  | .GO2 => ERZC_OP_GO2
  | .GO3 => ERZC_OP_GO3
  | .GO4 => ERZC_OP_GO4
  | .GO5 => ERZC_OP_GO5
  | .MOVE => ERZC_OP_MOVE
  | .DIG => ERZC_OP_DIG
  | .MOVDG => ERZC_OP_MOVDG
  | .RC045 => ERZC_OP_RC045
  | .RC090 => ERZC_OP_RC090
  | .RC135 => ERZC_OP_RC135
  | .RC180 => ERZC_OP_RC180
  | .CC045 => ERZC_OP_CC045
  | .CC090 => ERZC_OP_CC090
  | .CC135 => ERZC_OP_CC135
  | .SWLK => ERZC_OP_SWLK
  | .NWLK => ERZC_OP_NWLK
  | .SDIG => ERZC_OP_SDIG
  | .NDIG => ERZC_OP_NDIG
  | .SCRS => ERZC_OP_SCRS
  | .NCRS => ERZC_OP_NCRS
  | .SHND => ERZC_OP_SHND
  | .NHND => ERZC_OP_NHND

/-! ## Instructions and programs (`types.h`, lines 531-582) -/

/-- An instruction, `struct __tagERZC_Instruction`: the opcode (stored as its 32-bit
value) and the labels of the ok and err out pins. -/
structure ERZC_Instruction where
  op : Nat
  ok : ERZC_Label
  err : ERZC_Label
  deriving DecidableEq, Repr

/-- A program, `struct __tagERZC_Program`: `ERZC_Instruction data[ERZC_SIZE]` and
`ERZC_Label labels[ERZC_NAMED_LABEL_NUMBER]`. -/
structure ERZC_Program where
  data : Mathlib.Vector ERZC_Instruction ERZC_SIZE
  labels : Mathlib.Vector ERZC_Label ERZC_NAMED_LABEL_NUMBER
  deriving DecidableEq

/-- Input instructions, `struct __tagERZC_InInstructions` (`types.h`, lines 610-621): the
length `len` (a `size_t`, documented to be at most `ERZC_Label_UNDEFINED`) and the buffer
`data` points to. -/
structure ERZC_InInstructions where
  len : Nat
  data : List ERZC_Instruction

/-! ## Program routines (`program.c`, `program.h`) -/

/-- Modelled from the spec: the loop macro `MIR_FOREACH (array, len, &i, &elem) { body }`
of `<mir/common/macros.h>`, a header that is not among the sources. The spec describes
the initialisation this loop drives as one that "sets every cell" and "every named-label
slot", so the body runs once for each index `i = 0, ..., len - 1`, in increasing order,
with `elem` pointing at `array[i]`; the body is given as the function from the index and
the old element to the new element. -/
def MIR_FOREACH {α : Type} {n : Nat} (array : Mathlib.Vector α n) :
    (len : Nat) → (body : Nat → α → α) → Mathlib.Vector α n
  | 0, _ => array
  | k + 1, body =>
    let done := MIR_FOREACH array k body
    if h : k < n then done.set ⟨k, h⟩ (body k (done.get ⟨k, h⟩)) else done

/-- The routine `ERZC_Program_Init` of `program.c`. The pointer argument is `none` for
`NULL`; the assertion `program != NULL` fails there. Otherwise the first loop stores
`ERZC_OP_UNDF` in `instruction->op` of every cell and the second loop stores
`ERZC_Label_END` in every named-label slot. -/
def ERZC_Program_Init (program : Option ERZC_Program) : Except String ERZC_Program :=
  match program with
  | none => .error "param program MUST NOT be NULL"
  | some p =>
    let data := MIR_FOREACH p.data ERZC_SIZE
      (fun _ instruction => { instruction with op := ERZC_OP_UNDF })
    let labels := MIR_FOREACH p.labels ERZC_NAMED_LABEL_NUMBER
      (fun _ _ => ERZC_Label_END)
    .ok { data := data, labels := labels }

/-- The macro `ERZC_Program_Reset(program)`, which expands to `ERZC_Program_Init(program)`. -/
def ERZC_Program_Reset (program : Option ERZC_Program) : Except String ERZC_Program :=
  ERZC_Program_Init program

/-! ## Two concrete programs -/

/-- The zero-filled program: every cell is `(0, 0, 0)` and every named-label slot is `0`. -/
def zeroProgram : ERZC_Program :=
  { data := Mathlib.Vector.replicate ERZC_SIZE { op := 0, ok := 0, err := 0 },
    labels := Mathlib.Vector.replicate ERZC_NAMED_LABEL_NUMBER 0 }

/-- A program in which every cell holds `ERZC_OP_PCD` with its ok pin at label `1` and its
err label at `ERZC_Label_END`, and every named-label slot is `0`. -/
def moverProgram : ERZC_Program :=
  { data := Mathlib.Vector.replicate ERZC_SIZE
      { op := ERZC_OP_PCD, ok := 1, err := ERZC_Label_END },
    labels := Mathlib.Vector.replicate ERZC_NAMED_LABEL_NUMBER 0 }

/-! ## A concrete input graph -/

/-- A linear input graph of three instructions: instruction 0 continues at 1, instruction 1
at 2, and instruction 2 ends the program. -/
def linearGraph : ERZC_InInstructions :=
  { len := 3,
    data := [{ op := ERZC_OP_RC045, ok := 1, err := ERZC_Label_UNDEFINED },
             { op := ERZC_OP_RC090, ok := 2, err := ERZC_Label_UNDEFINED },
             { op := ERZC_OP_RC135, ok := ERZC_Label_END, err := ERZC_Label_UNDEFINED }] }

/-! ## Auxiliary lemmas -/

/-- After the loop, every element below `len` is the body applied to the old element, and
every other element is unchanged. -/
theorem MIR_FOREACH_get {α : Type} {n : Nat} (array : Mathlib.Vector α n) (len : Nat)
    (body : Nat → α → α) (j : Fin n) :
    (MIR_FOREACH array len body).get j =
      if j.val < len then body j.val (array.get j) else array.get j := by
  induction len with
  | zero => simp [MIR_FOREACH]
  | succ k ih =>
    simp only [MIR_FOREACH]
    by_cases hk : k < n
    · rw [dif_pos hk]
      by_cases hj : j = ⟨k, hk⟩
      · subst hj
        rw [Mathlib.Vector.get_set_same, ih]
        simp
      · have hne : j.val ≠ k := fun h => hj (Fin.ext h)
        rw [Mathlib.Vector.get_set_of_ne (Ne.symm hj), ih]
        by_cases hlt : j.val < k
        · have : j.val < k + 1 := by omega
          simp [hlt, this]
        · have : ¬ j.val < k + 1 := by omega
          simp [hlt, this]
    · rw [dif_neg hk, ih]
      have h1 : j.val < k := by have := j.isLt; omega
      have h2 : j.val < k + 1 := by omega
      simp [h1, h2]

/-- The cells of an initialised program: the old cell with `op` replaced. -/
theorem ERZC_Program_Init_data (p q : ERZC_Program)
    (h : ERZC_Program_Init (some p) = .ok q) (i : Fin ERZC_SIZE) :
    q.data.get i =
      { op := ERZC_OP_UNDF, ok := (p.data.get i).ok, err := (p.data.get i).err } := by
  simp only [ERZC_Program_Init, Except.ok.injEq] at h
  subst h
  simp only [MIR_FOREACH_get]
  rw [if_pos i.isLt]

/-- The named-label slots of an initialised program. -/
theorem ERZC_Program_Init_labels (p q : ERZC_Program)
    (h : ERZC_Program_Init (some p) = .ok q) (j : Fin ERZC_NAMED_LABEL_NUMBER) :
    q.labels.get j = ERZC_Label_END := by
  simp only [ERZC_Program_Init, Except.ok.injEq] at h
  subst h
  simp only [MIR_FOREACH_get]
  rw [if_pos j.isLt]

/-- Initialisation of a non-`NULL` program returns. -/
theorem ERZC_Program_Init_returns (p : ERZC_Program) :
    ∃ q, ERZC_Program_Init (some p) = .ok q :=
  ⟨_, rfl⟩

/-- Masking an 8-bit field at bit `k` and shifting it down is division and remainder. -/
theorem field_extract (w k : Nat) : (w &&& (255 <<< k)) >>> k = w / 2 ^ k % 256 := by
  apply Nat.eq_of_testBit_eq
  intro j
  have h255 : (255 : Nat) = 2 ^ 8 - 1 := by norm_num
  have h256 : (256 : Nat) = 2 ^ 8 := by norm_num
  rw [h256, Nat.testBit_mod_two_pow, ← Nat.shiftRight_eq_div_pow]
  simp only [Nat.testBit_shiftRight, Nat.testBit_and, Nat.testBit_shiftLeft, h255,
    Nat.testBit_two_pow_sub_one]
  have : k + j - k = j := by omega
  rw [this]
  have hk : k + j ≥ k := by omega
  simp [hk, Bool.and_comm]

/-- The ok field is the lowest byte of the word. -/
theorem ERZC_OP_GetOk_eq (op : Nat) : ERZC_OP_GetOk op = op % 2 ^ 32 % 256 := by
  have h := field_extract (op % 2 ^ 32) 0
  simpa [ERZC_OP_GetOk, uint32_t] using h

/-- The named-label field is the second byte of the word. -/
theorem ERZC_OP_GetOkLabel_eq (op : Nat) :
    ERZC_OP_GetOkLabel op = op % 2 ^ 32 / 2 ^ 8 % 256 :=
  field_extract (op % 2 ^ 32) 8

/-- The err field is the third byte of the word. -/
theorem ERZC_OP_GetErr_eq (op : Nat) : ERZC_OP_GetErr op = op % 2 ^ 32 / 2 ^ 16 % 256 :=
  field_extract (op % 2 ^ 32) 16

/-- The number field is the highest byte of the word. -/
theorem ERZC_OP_GetNr_eq (op : Nat) : ERZC_OP_GetNr op = op % 2 ^ 32 / 2 ^ 24 % 256 :=
  field_extract (op % 2 ^ 32) 24

/-- With fields that do not overlap, the packed word is the sum of the shifted fields. -/
theorem __ERZC_OP_BUILD_eq (nr ok err : Nat) (hnr : nr < 256) (hok : ok < 65536)
    (herr : err < 256) : __ERZC_OP_BUILD nr ok err = nr * 2 ^ 24 + err * 2 ^ 16 + ok := by
  have e1 : (uint32_t nr <<< __ERZC_OP_NR_RSHIFT) % 2 ^ 32 = 2 ^ 24 * nr := by
    simp only [uint32_t, __ERZC_OP_NR_RSHIFT, Nat.shiftLeft_eq]
    omega
  have e2 : (uint32_t ok <<< __ERZC_OP_OK_RSHIFT) % 2 ^ 32 = ok := by
    simp only [uint32_t, __ERZC_OP_OK_RSHIFT, Nat.shiftLeft_eq]
    omega
  have e3 : (uint32_t err <<< __ERZC_OP_ERR_RSHIFT) % 2 ^ 32 = 2 ^ 16 * err := by
    simp only [uint32_t, __ERZC_OP_ERR_RSHIFT, Nat.shiftLeft_eq]
    omega
  have hok16 : ok < 2 ^ 16 := by omega
  have hlow : 2 ^ 16 * err + ok < 2 ^ 24 := by omega
  unfold __ERZC_OP_BUILD
  rw [e1, e2, e3, Nat.lor_assoc, Nat.lor_comm ok, ← Nat.mul_add_lt_is_or hok16 err,
    ← Nat.mul_add_lt_is_or hlow nr]
  omega

/-- The ok descriptor of a named label below 256 is `x * 2 ^ 8 + ERZC_PIN_SOME`. -/
theorem __ERZC_OP_OK_LABEL_eq (x : Nat) (hx : x < 256) :
    __ERZC_OP_OK_LABEL x = x * 2 ^ 8 + 10 := by
  have e1 : (uint32_t x <<< __ERZC_OP_OK_LABEL_RSHIFT) % 2 ^ 32 = 2 ^ 8 * x := by
    simp only [uint32_t, __ERZC_OP_OK_LABEL_RSHIFT, Nat.shiftLeft_eq]
    omega
  have e2 : uint32_t ERZC_PIN_SOME = 10 := by decide
  have h10 : 10 < 2 ^ 8 := by norm_num
  unfold __ERZC_OP_OK_LABEL
  rw [e1, e2, ← Nat.mul_add_lt_is_or h10 x]
  omega

/-- Masking an `n`-bit field at bit `k` and shifting it down is division and remainder. -/
theorem field_extract_pow (w k n : Nat) :
    (w &&& ((2 ^ n - 1) <<< k)) >>> k = w / 2 ^ k % 2 ^ n := by
  apply Nat.eq_of_testBit_eq
  intro j
  rw [Nat.testBit_mod_two_pow, ← Nat.shiftRight_eq_div_pow]
  simp only [Nat.testBit_shiftRight, Nat.testBit_and, Nat.testBit_shiftLeft,
    Nat.testBit_two_pow_sub_one]
  have : k + j - k = j := by omega
  rw [this]
  have hk : k + j ≥ k := by omega
  simp [hk, Bool.and_comm]

/-- The x coordinate is the low half of the word. -/
theorem ERZC_Label_GetX_eq (l : Nat) : ERZC_Label_GetX l = l % 2 ^ 32 % 2 ^ 16 := by
  have h := field_extract_pow (l % 2 ^ 32) 0 16
  simpa [ERZC_Label_GetX, uint32_t] using h

/-- The y coordinate is the high half of the word. -/
theorem ERZC_Label_GetY_eq (l : Nat) : ERZC_Label_GetY l = l % 2 ^ 32 / 2 ^ 16 % 2 ^ 16 := by
  have h := field_extract_pow (l % 2 ^ 32) 16 16
  have hm : uint32_t ((0xFFFF <<< 16) % 2 ^ 32) = (2 ^ 16 - 1) <<< 16 := by decide
  unfold ERZC_Label_GetY
  rw [hm]
  exact h

/-- The quasi test on the numeric value of the word. -/
theorem ERZC_Label_IsQuasi_eq (l : Nat) :
    ERZC_Label_IsQuasi l = decide (l % 2 ^ 32 ≥ 4294967294) := by
  have hU : ERZC_Label_QUASI_MIN = 4294967294 := by decide
  simp only [ERZC_Label_IsQuasi, uint32_t, hU]

/-- The ok descriptor `ok | (lab << 8)` of two bytes is `lab * 2 ^ 8 + ok`. -/
theorem ok_descriptor_eq (ok lab : Nat) (hok : ok < 256) (hlab : lab < 256) :
    ok ||| (lab <<< 8) % 2 ^ 32 = lab * 2 ^ 8 + ok := by
  have h8 : ok < 2 ^ 8 := by omega
  have e : (lab <<< 8) % 2 ^ 32 = 2 ^ 8 * lab := by
    rw [Nat.shiftLeft_eq]
    omega
  rw [e, Nat.lor_comm, ← Nat.mul_add_lt_is_or h8 lab]
  omega

/-! ## Claims -/

/-- C1: for every program `p`, `ERZC_Program_Init` (and so `ERZC_Program_Reset`) returns
a program, `ERZC_SIZE = ERZC_WIDTH * ERZC_HEIGHT = 960`, `ERZC_NAMED_LABEL_NUMBER = 6`,
every cell of the result has `op = ERZC_OP_UNDF` and every named-label slot of the result
is `ERZC_Label_END`. -/
theorem program_init_all_undf_end (p : ERZC_Program) :
    ∃ q, ERZC_Program_Init (some p) = .ok q ∧ ERZC_Program_Reset (some p) = .ok q ∧
      ERZC_SIZE = ERZC_WIDTH * ERZC_HEIGHT ∧ ERZC_SIZE = 960 ∧ ERZC_NAMED_LABEL_NUMBER = 6 ∧
      (∀ i : Fin ERZC_SIZE, (q.data.get i).op = ERZC_OP_UNDF) ∧
      (∀ j : Fin ERZC_NAMED_LABEL_NUMBER, q.labels.get j = ERZC_Label_END) := by
  obtain ⟨q, hq⟩ := ERZC_Program_Init_returns p
  refine ⟨q, hq, hq, by decide, by decide, rfl, ?_, ?_⟩
  · intro i
    rw [ERZC_Program_Init_data p q hq i]
  · intro j
    exact ERZC_Program_Init_labels p q hq j

/-- C2: resetting is idempotent: for every program `p`, `ERZC_Program_Reset` returns a
program `q`, and resetting `q` returns exactly `q` again (same cells, same label slots). -/
theorem program_reset_idempotent (p : ERZC_Program) :
    ∃ q, ERZC_Program_Reset (some p) = .ok q ∧ ERZC_Program_Reset (some q) = .ok q ∧
      ERZC_Program_Init (some p) = .ok q ∧ ERZC_Program_Init (some q) = .ok q := by
  obtain ⟨q, hq⟩ := ERZC_Program_Init_returns p
  obtain ⟨r, hr⟩ := ERZC_Program_Init_returns q
  have hrq : r = q := by
    have hd : r.data = q.data := by
      apply Mathlib.Vector.ext
      intro i
      rw [ERZC_Program_Init_data q r hr i, ERZC_Program_Init_data p q hq i]
    have hl : r.labels = q.labels := by
      apply Mathlib.Vector.ext
      intro j
      rw [ERZC_Program_Init_labels q r hr j, ERZC_Program_Init_labels p q hq j]
    cases r
    cases q
    simp only [ERZC_Program.mk.injEq]
    exact ⟨hd, hl⟩
  rw [hrq] at hr
  exact ⟨q, hq, hr, hq, hr⟩

/-- C3 fails as stated: the zero-filled program and a program whose cells carry the ok
label `1` are initialised to different program values. -/
theorem program_init_not_same :
    ERZC_Program_Init (some zeroProgram) ≠ ERZC_Program_Init (some moverProgram) := by
  intro h
  obtain ⟨a, ha⟩ := ERZC_Program_Init_returns zeroProgram
  obtain ⟨b, hb⟩ := ERZC_Program_Init_returns moverProgram
  rw [ha, hb, Except.ok.injEq] at h
  have h0 := ERZC_Program_Init_data zeroProgram a ha ⟨0, by decide⟩
  have h1 := ERZC_Program_Init_data moverProgram b hb ⟨0, by decide⟩
  rw [h, h1] at h0
  have hok := congrArg ERZC_Instruction.ok h0
  simp only [zeroProgram, moverProgram, Mathlib.Vector.get_replicate] at hok
  exact absurd hok (by decide)

/-- C3, amended: for any two programs `p` and `q`, both initialisations return, the results
agree on the `op` field of every cell and on every named-label slot, and they are the same
program value exactly when `p` and `q` agree on the `ok` and `err` labels of every cell. -/
theorem program_init_agree (p q : ERZC_Program) :
    ∃ a b, ERZC_Program_Init (some p) = .ok a ∧ ERZC_Program_Init (some q) = .ok b ∧
      (∀ i : Fin ERZC_SIZE, (a.data.get i).op = (b.data.get i).op) ∧
      (∀ j : Fin ERZC_NAMED_LABEL_NUMBER, a.labels.get j = b.labels.get j) ∧
      (a = b ↔ ∀ i : Fin ERZC_SIZE,
        (p.data.get i).ok = (q.data.get i).ok ∧ (p.data.get i).err = (q.data.get i).err) := by
  obtain ⟨a, ha⟩ := ERZC_Program_Init_returns p
  obtain ⟨b, hb⟩ := ERZC_Program_Init_returns q
  have hl : a.labels = b.labels := by
    apply Mathlib.Vector.ext
    intro j
    rw [ERZC_Program_Init_labels p a ha j, ERZC_Program_Init_labels q b hb j]
  refine ⟨a, b, ha, hb, ?_, ?_, ?_, ?_⟩
  · intro i
    rw [ERZC_Program_Init_data p a ha i, ERZC_Program_Init_data q b hb i]
  · intro j
    rw [hl]
  · intro hab i
    have h0 := ERZC_Program_Init_data p a ha i
    have h1 := ERZC_Program_Init_data q b hb i
    rw [hab, h1] at h0
    simp only [ERZC_Instruction.mk.injEq, true_and] at h0
    exact ⟨h0.1.symm, h0.2.symm⟩
  · intro hpq
    have hd : a.data = b.data := by
      apply Mathlib.Vector.ext
      intro i
      rw [ERZC_Program_Init_data p a ha i, ERZC_Program_Init_data q b hb i, (hpq i).1,
        (hpq i).2]
    cases a
    cases b
    simp only [ERZC_Program.mk.injEq]
    exact ⟨hd, hl⟩

/-- C4: opcode pack/unpack round-trips. For fields `nr`, `ok`, `err` below 256 the getters
return the fields of `__ERZC_OP_BUILD nr ok err` and the named-label field is 0; with
`ok = __ERZC_OP_OK_LABEL x`, `x` below 256, the ok field is `ERZC_PIN_SOME`, the named-label
field is `x`, and the number and err fields are still `nr` and `err`. -/
theorem op_pack_unpack_roundtrip (nr ok err x : Nat) (hnr : nr < 256) (hok : ok < 256)
    (herr : err < 256) (hx : x < 256) :
    ERZC_OP_GetNr (__ERZC_OP_BUILD nr ok err) = nr ∧
    ERZC_OP_GetOk (__ERZC_OP_BUILD nr ok err) = ok ∧
    ERZC_OP_GetErr (__ERZC_OP_BUILD nr ok err) = err ∧
    ERZC_OP_GetOkLabel (__ERZC_OP_BUILD nr ok err) = 0 ∧
    ERZC_OP_GetOk (__ERZC_OP_BUILD nr (__ERZC_OP_OK_LABEL x) err) = ERZC_PIN_SOME ∧
    ERZC_OP_GetOkLabel (__ERZC_OP_BUILD nr (__ERZC_OP_OK_LABEL x) err) = x ∧
    ERZC_OP_GetNr (__ERZC_OP_BUILD nr (__ERZC_OP_OK_LABEL x) err) = nr ∧
    ERZC_OP_GetErr (__ERZC_OP_BUILD nr (__ERZC_OP_OK_LABEL x) err) = err := by
  have hl := __ERZC_OP_OK_LABEL_eq x hx
  have hb1 := __ERZC_OP_BUILD_eq nr ok err hnr (by omega) herr
  have hb2 := __ERZC_OP_BUILD_eq nr (__ERZC_OP_OK_LABEL x) err hnr (by omega) herr
  rw [ERZC_OP_GetNr_eq, ERZC_OP_GetOk_eq, ERZC_OP_GetErr_eq, ERZC_OP_GetOkLabel_eq,
    ERZC_OP_GetNr_eq, ERZC_OP_GetOk_eq, ERZC_OP_GetErr_eq, ERZC_OP_GetOkLabel_eq, hb1, hb2, hl]
  simp only [ERZC_PIN_SOME]
  omega

/-- Witness for C4 at `nr = 27`, `ok = 4`, `err = 1`, `x = 5`. -/
theorem op_pack_unpack_roundtrip_witness :
    ERZC_OP_GetNr (__ERZC_OP_BUILD 27 4 1) = 27 ∧
    ERZC_OP_GetOk (__ERZC_OP_BUILD 27 4 1) = 4 ∧
    ERZC_OP_GetErr (__ERZC_OP_BUILD 27 4 1) = 1 ∧
    ERZC_OP_GetOkLabel (__ERZC_OP_BUILD 27 4 1) = 0 ∧
    ERZC_OP_GetOk (__ERZC_OP_BUILD 27 (__ERZC_OP_OK_LABEL 5) 1) = ERZC_PIN_SOME ∧
    ERZC_OP_GetOkLabel (__ERZC_OP_BUILD 27 (__ERZC_OP_OK_LABEL 5) 1) = 5 ∧
    ERZC_OP_GetNr (__ERZC_OP_BUILD 27 (__ERZC_OP_OK_LABEL 5) 1) = 27 ∧
    ERZC_OP_GetErr (__ERZC_OP_BUILD 27 (__ERZC_OP_OK_LABEL 5) 1) = 1 :=
  op_pack_unpack_roundtrip 27 4 1 5 (by decide) (by decide) (by decide) (by decide)

/-- C5: for every 32-bit label `l`, `ERZC_Label_IsQuasi l` holds iff `l` is at least
`ERZC_Label_QUASI_MIN`, which holds iff `l` is `ERZC_Label_END` or `ERZC_Label_UNDEFINED`;
these are `2 ^ 32 - 1` and `2 ^ 32 - 2`, and they are distinct. -/
theorem label_isQuasi_iff (l : Nat) (hl : l < 2 ^ 32) :
    (ERZC_Label_IsQuasi l = true ↔ l ≥ ERZC_Label_QUASI_MIN) ∧
    (l ≥ ERZC_Label_QUASI_MIN ↔ l = ERZC_Label_END ∨ l = ERZC_Label_UNDEFINED) ∧
    ERZC_Label_END = 2 ^ 32 - 1 ∧ ERZC_Label_UNDEFINED = 2 ^ 32 - 2 ∧
    ERZC_Label_END ≠ ERZC_Label_UNDEFINED := by
  have hE : ERZC_Label_END = 4294967295 := by decide
  have hU : ERZC_Label_UNDEFINED = 4294967294 := by decide
  have hl2 : l < 4294967296 := by simpa using hl
  have hm : l % 4294967296 = l := Nat.mod_eq_of_lt hl2
  simp only [ERZC_Label_IsQuasi, uint32_t, ERZC_Label_QUASI_MIN, hE, hU, decide_eq_true_eq]
  norm_num
  rw [hm]
  omega

/-- Witness for C5 at the label `ERZC_Label_UNDEFINED = 4294967294`. -/
theorem label_isQuasi_iff_witness :
    4294967294 < 2 ^ 32 ∧ ERZC_Label_IsQuasi 4294967294 = true ∧
    ((4294967294 : Nat) ≥ ERZC_Label_QUASI_MIN ↔
      4294967294 = ERZC_Label_END ∨ 4294967294 = ERZC_Label_UNDEFINED) :=
  ⟨by decide, (label_isQuasi_iff 4294967294 (by decide)).1.mpr
      (by decide), (label_isQuasi_iff 4294967294 (by decide)).2.1⟩

/-- C6: the four directions are pairwise distinct, none of them is `ERZC_PIN_NONE` or
`ERZC_PIN_SOME`, the two pin sentinels differ, and all six values are below 256. -/
theorem direction_pin_distinct :
    [ERZC_Direction_UP, ERZC_Direction_LEFT, ERZC_Direction_DOWN, ERZC_Direction_RIGHT,
      ERZC_PIN_NONE, ERZC_PIN_SOME].Nodup ∧
    ERZC_Direction_UP < 256 ∧ ERZC_Direction_LEFT < 256 ∧ ERZC_Direction_DOWN < 256 ∧
    ERZC_Direction_RIGHT < 256 ∧ ERZC_PIN_NONE < 256 ∧ ERZC_PIN_SOME < 256 := by
  decide

/-- C7: for every `k` in `0..5` the opcode `ERZC_OP_GOk` has ok field `ERZC_PIN_SOME`,
named-label field `k`, err field `ERZC_PIN_NONE` and number `6 + k`; the named-label fields
of the six goto opcodes are exactly the slot indices `0, ..., ERZC_NAMED_LABEL_NUMBER - 1`,
each once. -/
theorem goto_ops_fields :
    (∀ k : Fin 6,
      ERZC_OP_GetOk ([ERZC_OP_GO0, ERZC_OP_GO1, ERZC_OP_GO2, ERZC_OP_GO3, ERZC_OP_GO4,
        ERZC_OP_GO5].get k) = ERZC_PIN_SOME ∧
      ERZC_OP_GetOkLabel ([ERZC_OP_GO0, ERZC_OP_GO1, ERZC_OP_GO2, ERZC_OP_GO3, ERZC_OP_GO4,
        ERZC_OP_GO5].get k) = k.val ∧
      ERZC_OP_GetErr ([ERZC_OP_GO0, ERZC_OP_GO1, ERZC_OP_GO2, ERZC_OP_GO3, ERZC_OP_GO4,
        ERZC_OP_GO5].get k) = ERZC_PIN_NONE ∧
      ERZC_OP_GetNr ([ERZC_OP_GO0, ERZC_OP_GO1, ERZC_OP_GO2, ERZC_OP_GO3, ERZC_OP_GO4,
        ERZC_OP_GO5].get k) = 6 + k.val) ∧
    List.map ERZC_OP_GetOkLabel [ERZC_OP_GO0, ERZC_OP_GO1, ERZC_OP_GO2, ERZC_OP_GO3,
      ERZC_OP_GO4, ERZC_OP_GO5] = List.range ERZC_NAMED_LABEL_NUMBER := by
  decide

/-- C8 fails as stated: `ERZC_OP_EMPTY` has ok field `ERZC_PIN_SOME` and is none of the six
goto opcodes. -/
theorem empty_has_pin_some :
    ERZC_OP_GetOk ERZC_OP.EMPTY.value = ERZC_PIN_SOME ∧
    ERZC_OP.EMPTY.value ∉ [ERZC_OP_GO0, ERZC_OP_GO1, ERZC_OP_GO2, ERZC_OP_GO3, ERZC_OP_GO4,
      ERZC_OP_GO5] ∧
    ERZC_OP.EMPTY ∉ [ERZC_OP.GO0, ERZC_OP.GO1, ERZC_OP.GO2, ERZC_OP.GO3, ERZC_OP.GO4,
      ERZC_OP.GO5] := by
  decide

/-- C8, amended: for every named opcode, an ok field equal to `ERZC_PIN_SOME` occurs only on
the six goto opcodes and on `ERZC_OP_EMPTY`; every other named opcode has an ok field equal
to `ERZC_PIN_NONE` or to one of the four directions. -/
theorem pin_some_only_goto_or_empty (op : ERZC_OP) :
    (ERZC_OP_GetOk op.value = ERZC_PIN_SOME →
      op ∈ [ERZC_OP.GO0, ERZC_OP.GO1, ERZC_OP.GO2, ERZC_OP.GO3, ERZC_OP.GO4, ERZC_OP.GO5,
        ERZC_OP.EMPTY]) ∧
    (op ∉ [ERZC_OP.GO0, ERZC_OP.GO1, ERZC_OP.GO2, ERZC_OP.GO3, ERZC_OP.GO4, ERZC_OP.GO5,
        ERZC_OP.EMPTY] →
      ERZC_OP_GetOk op.value ∈ [ERZC_PIN_NONE, ERZC_Direction_UP, ERZC_Direction_LEFT,
        ERZC_Direction_DOWN, ERZC_Direction_RIGHT]) := by
  cases op <;> decide

/-- C9: for every named opcode the ok field is one of `ERZC_PIN_NONE`, the four directions
and `ERZC_PIN_SOME`; it is `ERZC_PIN_SOME` iff the opcode is one of `GO0..GO5` or is
`ERZC_OP_EMPTY`. -/
theorem getOk_values (op : ERZC_OP) :
    ERZC_OP_GetOk op.value ∈ [ERZC_PIN_NONE, ERZC_Direction_UP, ERZC_Direction_LEFT,
      ERZC_Direction_DOWN, ERZC_Direction_RIGHT, ERZC_PIN_SOME] ∧
    (ERZC_OP_GetOk op.value = ERZC_PIN_SOME ↔
      (op ∈ [ERZC_OP.GO0, ERZC_OP.GO1, ERZC_OP.GO2, ERZC_OP.GO3, ERZC_OP.GO4, ERZC_OP.GO5] ∨
        op = ERZC_OP.EMPTY)) := by
  cases op <;> decide

/-- C10: for every named opcode the err field is `ERZC_PIN_NONE` or `ERZC_Direction_DOWN`,
and so never `ERZC_PIN_SOME`. -/
theorem getErr_values (op : ERZC_OP) :
    (ERZC_OP_GetErr op.value = ERZC_PIN_NONE ∨ ERZC_OP_GetErr op.value = ERZC_Direction_DOWN) ∧
    ERZC_OP_GetErr op.value ≠ ERZC_PIN_SOME := by
  cases op <;> decide

/-- C11: every named opcode with an err pin is real (its number is at least
`__ERZC_OP_NR_REAL_MIN = 12`), as `ERZC_OP_MOVE` is; the converse fails, since
`ERZC_OP_RC045` is real and its err field is `ERZC_PIN_NONE`. -/
theorem err_pin_implies_real :
    (∀ op : ERZC_OP, ERZC_OP_GetErr op.value ≠ ERZC_PIN_NONE →
      ERZC_OP_GetNr op.value ≥ __ERZC_OP_NR_REAL_MIN) ∧
    __ERZC_OP_NR_REAL_MIN = 12 ∧
    ERZC_OP_GetErr ERZC_OP.MOVE.value ≠ ERZC_PIN_NONE ∧
    (ERZC_OP_GetNr ERZC_OP.RC045.value ≥ __ERZC_OP_NR_REAL_MIN ∧
      ERZC_OP_GetErr ERZC_OP.RC045.value = ERZC_PIN_NONE) := by
  refine ⟨?_, by decide, by decide, by decide⟩
  intro op
  cases op <;> decide

/-- C12: for input instructions whose length is at most `ERZC_Label_UNDEFINED`, every index
below the length is a non-quasi label: it is neither `ERZC_Label_END` nor
`ERZC_Label_UNDEFINED`. -/
theorem input_index_not_quasi (g : ERZC_InInstructions) (i : Nat)
    (hlen : g.len ≤ ERZC_Label_UNDEFINED) (hi : i < g.len) :
    ERZC_Label_IsQuasi i = false ∧ i ≠ ERZC_Label_END ∧ i ≠ ERZC_Label_UNDEFINED := by
  have hE : ERZC_Label_END = 4294967295 := by decide
  have hU : ERZC_Label_UNDEFINED = 4294967294 := by decide
  rw [hU] at hlen
  have hm : i % 2 ^ 32 = i := Nat.mod_eq_of_lt (by omega)
  rw [ERZC_Label_IsQuasi_eq, hm, hE, hU]
  refine ⟨?_, by omega, by omega⟩
  simp only [decide_eq_false_iff_not]
  omega

/-- Witness for C12 at the last index of the three-instruction linear graph. -/
theorem input_index_not_quasi_witness :
    linearGraph.len ≤ ERZC_Label_UNDEFINED ∧ 2 < linearGraph.len ∧
    ERZC_Label_IsQuasi 2 = false ∧ 2 ≠ ERZC_Label_END ∧ 2 ≠ ERZC_Label_UNDEFINED :=
  ⟨by decide, by decide, input_index_not_quasi linearGraph 2 (by decide) (by decide)⟩

/-- C13: a 32-bit label `l` is composed of exactly its coordinates: both are below `2 ^ 16`
and `l = GetY l * 2 ^ 16 + GetX l`; for `x`, `y` below `2 ^ 16` the label `y * 2 ^ 16 + x`
has coordinates `x` and `y`; and a 32-bit label with the same coordinates as `l` is `l`. -/
theorem label_coordinates (l x y : Nat) (hl : l < 2 ^ 32) (hx : x < 2 ^ 16)
    (hy : y < 2 ^ 16) :
    ERZC_Label_GetX l < 2 ^ 16 ∧ ERZC_Label_GetY l < 2 ^ 16 ∧
    l = ERZC_Label_GetY l * 2 ^ 16 + ERZC_Label_GetX l ∧
    ERZC_Label_GetX (y * 2 ^ 16 + x) = x ∧ ERZC_Label_GetY (y * 2 ^ 16 + x) = y ∧
    (∀ m : Nat, m < 2 ^ 32 → ERZC_Label_GetX m = ERZC_Label_GetX l →
      ERZC_Label_GetY m = ERZC_Label_GetY l → m = l) := by
  simp only [ERZC_Label_GetX_eq, ERZC_Label_GetY_eq]
  norm_num at hl hx hy ⊢
  refine ⟨by omega, by omega, by omega, by omega, by omega, ?_⟩
  intro m hm h1 h2
  omega

/-- Witness for C13 at the label `0x0005000B` and the coordinates `x = 11`, `y = 79`. -/
theorem label_coordinates_witness :
    ERZC_Label_GetX 0x0005000B = 11 ∧ ERZC_Label_GetY 0x0005000B = 5 ∧
    0x0005000B = ERZC_Label_GetY 0x0005000B * 2 ^ 16 + ERZC_Label_GetX 0x0005000B ∧
    ERZC_Label_GetX (79 * 2 ^ 16 + 11) = 11 ∧ ERZC_Label_GetY (79 * 2 ^ 16 + 11) = 79 :=
  ⟨by decide, by decide,
    (label_coordinates 0x0005000B 11 79 (by decide) (by decide) (by decide)).2.2.1,
    (label_coordinates 0x0005000B 11 79 (by decide) (by decide) (by decide)).2.2.2.1,
    (label_coordinates 0x0005000B 11 79 (by decide) (by decide) (by decide)).2.2.2.2.1⟩

/-- C14: the movers `PCW`, `PCA`, `PCS`, `PCD` have ok fields `UP`, `LEFT`, `DOWN`, `RIGHT`
and err field `ERZC_PIN_NONE`; and for each of the four directions exactly one named opcode
with a number below `__ERZC_OP_NR_REAL_MIN` has that direction as its ok field. -/
theorem mover_ops_directions :
    (ERZC_OP_GetOk ERZC_OP_PCW = ERZC_Direction_UP ∧
      ERZC_OP_GetOk ERZC_OP_PCA = ERZC_Direction_LEFT ∧
      ERZC_OP_GetOk ERZC_OP_PCS = ERZC_Direction_DOWN ∧
      ERZC_OP_GetOk ERZC_OP_PCD = ERZC_Direction_RIGHT) ∧
    (ERZC_OP_GetErr ERZC_OP_PCW = ERZC_PIN_NONE ∧ ERZC_OP_GetErr ERZC_OP_PCA = ERZC_PIN_NONE ∧
      ERZC_OP_GetErr ERZC_OP_PCS = ERZC_PIN_NONE ∧
      ERZC_OP_GetErr ERZC_OP_PCD = ERZC_PIN_NONE) ∧
    (∀ d ∈ [ERZC_Direction_UP, ERZC_Direction_LEFT, ERZC_Direction_DOWN,
        ERZC_Direction_RIGHT],
      ∃! op : ERZC_OP,
        ERZC_OP_GetNr op.value < __ERZC_OP_NR_REAL_MIN ∧ ERZC_OP_GetOk op.value = d) := by
  refine ⟨by decide, by decide, ?_⟩
  intro d hd
  simp only [List.mem_cons, List.mem_singleton, List.not_mem_nil, or_false] at hd
  rcases hd with rfl | rfl | rfl | rfl
  · refine ⟨ERZC_OP.PCW, by decide, ?_⟩
    intro op
    cases op <;> decide
  · refine ⟨ERZC_OP.PCA, by decide, ?_⟩
    intro op
    cases op <;> decide
  · refine ⟨ERZC_OP.PCS, by decide, ?_⟩
    intro op
    cases op <;> decide
  · refine ⟨ERZC_OP.PCD, by decide, ?_⟩
    intro op
    cases op <;> decide

/-- C16, evaluated on the code: `SWLK` and `SHND` are different enumerators with the same
number 22 and the same 32-bit value, and so are `NWLK` and `NHND` with number 23; any two
other differently named enumerators have different numbers. -/
theorem opcode_number_collision :
    (ERZC_OP.SWLK ≠ ERZC_OP.SHND ∧ ERZC_OP_GetNr ERZC_OP.SWLK.value = 22 ∧
      ERZC_OP_GetNr ERZC_OP.SHND.value = 22 ∧ ERZC_OP.SWLK.value = ERZC_OP.SHND.value) ∧
    (ERZC_OP.NWLK ≠ ERZC_OP.NHND ∧ ERZC_OP_GetNr ERZC_OP.NWLK.value = 23 ∧
      ERZC_OP_GetNr ERZC_OP.NHND.value = 23 ∧ ERZC_OP.NWLK.value = ERZC_OP.NHND.value) ∧
    (∀ a b : ERZC_OP, a ≠ b → ERZC_OP_GetNr a.value = ERZC_OP_GetNr b.value →
      (a, b) ∈ [(ERZC_OP.SWLK, ERZC_OP.SHND), (ERZC_OP.SHND, ERZC_OP.SWLK),
        (ERZC_OP.NWLK, ERZC_OP.NHND), (ERZC_OP.NHND, ERZC_OP.NWLK)]) := by
  refine ⟨by decide, by decide, ?_⟩
  intro a b
  cases a <;> cases b <;> decide

/-- C17: every named opcode with number at least `__ERZC_OP_NR_REAL_MIN` has ok field
`ERZC_Direction_RIGHT`, hence neither `ERZC_PIN_NONE` nor `ERZC_PIN_SOME`, and its err field,
when not `ERZC_PIN_NONE`, is `ERZC_Direction_DOWN`. -/
theorem real_ops_ok_right (op : ERZC_OP)
    (h : ERZC_OP_GetNr op.value ≥ __ERZC_OP_NR_REAL_MIN) :
    ERZC_OP_GetOk op.value = ERZC_Direction_RIGHT ∧
    ERZC_OP_GetOk op.value ≠ ERZC_PIN_NONE ∧ ERZC_OP_GetOk op.value ≠ ERZC_PIN_SOME ∧
    (ERZC_OP_GetErr op.value ≠ ERZC_PIN_NONE →
      ERZC_OP_GetErr op.value = ERZC_Direction_DOWN) := by
  revert h
  cases op <;> decide

/-- Witness for C17 at `ERZC_OP_MOVE`. -/
theorem real_ops_ok_right_witness :
    ERZC_OP_GetNr ERZC_OP.MOVE.value ≥ __ERZC_OP_NR_REAL_MIN ∧
    ERZC_OP_GetOk ERZC_OP.MOVE.value = ERZC_Direction_RIGHT ∧
    ERZC_OP_GetErr ERZC_OP.MOVE.value = ERZC_Direction_DOWN :=
  ⟨by decide, (real_ops_ok_right ERZC_OP.MOVE (by decide)).1,
    (real_ops_ok_right ERZC_OP.MOVE (by decide)).2.2.2 (by decide)⟩

/-- C18: `ERZC_OP_UNDF` is the word 0 with number 0 and both pin fields `ERZC_PIN_NONE`,
and it is the only named opcode whose ok field is `ERZC_PIN_NONE`; every cell of the
zero-filled program is a placeholder cell, while its named-label slots are the label 0,
which is not `ERZC_Label_END`, is not quasi, and has coordinates `(0, 0)`. -/
theorem undf_is_zero_word :
    ERZC_OP_UNDF = 0 ∧ ERZC_OP_GetNr ERZC_OP_UNDF = 0 ∧
    ERZC_OP_GetOk ERZC_OP_UNDF = ERZC_PIN_NONE ∧ ERZC_OP_GetErr ERZC_OP_UNDF = ERZC_PIN_NONE ∧
    (∀ op : ERZC_OP, ERZC_OP_GetOk op.value = ERZC_PIN_NONE ↔ op = ERZC_OP.UNDF) ∧
    (∀ i : Fin ERZC_SIZE, (zeroProgram.data.get i).op = ERZC_OP_UNDF) ∧
    (∀ j : Fin ERZC_NAMED_LABEL_NUMBER,
      zeroProgram.labels.get j = 0 ∧ zeroProgram.labels.get j ≠ ERZC_Label_END) ∧
    ERZC_Label_IsQuasi 0 = false ∧ ERZC_Label_GetX 0 = 0 ∧ ERZC_Label_GetY 0 = 0 := by
  refine ⟨by decide, by decide, by decide, by decide, ?_, ?_, ?_, by decide, by decide,
    by decide⟩
  · intro op
    cases op <;> decide
  · intro i
    simp only [zeroProgram, Mathlib.Vector.get_replicate]
    decide
  · intro j
    simp only [zeroProgram, Mathlib.Vector.get_replicate]
    decide

/-- C19: frame of initialisation: for every program `p`, `ERZC_Program_Init` returns a
program in which the ok and err labels of every cell are those of `p`. -/
theorem program_init_frame (p : ERZC_Program) :
    ∃ q, ERZC_Program_Init (some p) = .ok q ∧
      ∀ i : Fin ERZC_SIZE,
        (q.data.get i).ok = (p.data.get i).ok ∧ (q.data.get i).err = (p.data.get i).err := by
  obtain ⟨q, hq⟩ := ERZC_Program_Init_returns p
  refine ⟨q, hq, ?_⟩
  intro i
  rw [ERZC_Program_Init_data p q hq i]
  exact ⟨rfl, rfl⟩

/-- C20: a label whose x coordinate is below `ERZC_WIDTH` and whose y coordinate is below
`ERZC_HEIGHT` is not quasi; every quasi label has y coordinate `0xFFFF` and x coordinate at
least `0xFFFE`. -/
theorem grid_label_not_quasi (l : Nat) :
    (ERZC_Label_GetX l < ERZC_WIDTH → ERZC_Label_GetY l < ERZC_HEIGHT →
      ERZC_Label_IsQuasi l = false) ∧
    (ERZC_Label_IsQuasi l = true →
      ERZC_Label_GetY l = 0xFFFF ∧ ERZC_Label_GetX l ≥ 0xFFFE) := by
  simp only [ERZC_Label_GetX_eq, ERZC_Label_GetY_eq, ERZC_Label_IsQuasi_eq, ERZC_WIDTH,
    ERZC_HEIGHT, decide_eq_false_iff_not, decide_eq_true_eq]
  norm_num
  have := Nat.mod_lt l (show 4294967296 > 0 by norm_num)
  constructor
  · intro h1 h2
    omega
  · intro h
    omega

/-- C21: for every named opcode whose ok field is `ERZC_PIN_SOME`, the named-label field is
below `ERZC_NAMED_LABEL_NUMBER`, so the lookup of that index in the `labels` table of any
program finds a slot. -/
theorem named_label_index_in_bounds (op : ERZC_OP)
    (h : ERZC_OP_GetOk op.value = ERZC_PIN_SOME) :
    ERZC_OP_GetOkLabel op.value < ERZC_NAMED_LABEL_NUMBER ∧
    ∀ p : ERZC_Program, ∃ l, p.labels.toList[ERZC_OP_GetOkLabel op.value]? = some l := by
  have hlt : ERZC_OP_GetOkLabel op.value < ERZC_NAMED_LABEL_NUMBER := by
    revert h
    cases op <;> decide
  refine ⟨hlt, ?_⟩
  intro p
  have hlen : ERZC_OP_GetOkLabel op.value < p.labels.toList.length := by
    rw [Mathlib.Vector.toList_length]
    exact hlt
  exact ⟨p.labels.toList[ERZC_OP_GetOkLabel op.value], List.getElem?_eq_getElem hlen⟩

/-- Witness for C21 at `ERZC_OP_GO5`, the opcode with the largest named-label index. -/
theorem named_label_index_in_bounds_witness :
    ERZC_OP_GetOk ERZC_OP.GO5.value = ERZC_PIN_SOME ∧
    ERZC_OP_GetOkLabel ERZC_OP.GO5.value < ERZC_NAMED_LABEL_NUMBER :=
  ⟨by decide, (named_label_index_in_bounds ERZC_OP.GO5 (by decide)).1⟩

/-- C22: the four getters partition a 32-bit word `w` losslessly: `w` is
`__ERZC_OP_BUILD` of its number, of its ok descriptor `GetOk w | (GetOkLabel w << 8)` and of
its err field; hence a 32-bit word with the same four fields as `w` is `w`. -/
theorem op_getters_lossless (w : Nat) (hw : w < 2 ^ 32) :
    w = __ERZC_OP_BUILD (ERZC_OP_GetNr w)
      (ERZC_OP_GetOk w ||| (ERZC_OP_GetOkLabel w <<< 8) % 2 ^ 32) (ERZC_OP_GetErr w) ∧
    (∀ v : Nat, v < 2 ^ 32 → ERZC_OP_GetNr v = ERZC_OP_GetNr w →
      ERZC_OP_GetOk v = ERZC_OP_GetOk w → ERZC_OP_GetOkLabel v = ERZC_OP_GetOkLabel w →
      ERZC_OP_GetErr v = ERZC_OP_GetErr w → v = w) := by
  have hnr : ERZC_OP_GetNr w < 256 := by rw [ERZC_OP_GetNr_eq]; omega
  have hok : ERZC_OP_GetOk w < 256 := by rw [ERZC_OP_GetOk_eq]; omega
  have hlab : ERZC_OP_GetOkLabel w < 256 := by rw [ERZC_OP_GetOkLabel_eq]; omega
  have herr : ERZC_OP_GetErr w < 256 := by rw [ERZC_OP_GetErr_eq]; omega
  have hd := ok_descriptor_eq (ERZC_OP_GetOk w) (ERZC_OP_GetOkLabel w) hok hlab
  have hb := __ERZC_OP_BUILD_eq (ERZC_OP_GetNr w)
    (ERZC_OP_GetOk w ||| (ERZC_OP_GetOkLabel w <<< 8) % 2 ^ 32) (ERZC_OP_GetErr w) hnr
    (by rw [hd]; omega) herr
  constructor
  · rw [hb, hd, ERZC_OP_GetNr_eq, ERZC_OP_GetOk_eq, ERZC_OP_GetOkLabel_eq, ERZC_OP_GetErr_eq]
    omega
  · intro v hv
    rw [ERZC_OP_GetNr_eq, ERZC_OP_GetOk_eq, ERZC_OP_GetOkLabel_eq, ERZC_OP_GetErr_eq,
      ERZC_OP_GetNr_eq, ERZC_OP_GetOk_eq, ERZC_OP_GetOkLabel_eq, ERZC_OP_GetErr_eq]
    intro h1 h2 h3 h4
    omega

/-- Witness for C22 at the word `0xDEADBEEF`. -/
theorem op_getters_lossless_witness :
    0xDEADBEEF = __ERZC_OP_BUILD (ERZC_OP_GetNr 0xDEADBEEF)
      (ERZC_OP_GetOk 0xDEADBEEF ||| (ERZC_OP_GetOkLabel 0xDEADBEEF <<< 8) % 2 ^ 32)
      (ERZC_OP_GetErr 0xDEADBEEF) :=
  (op_getters_lossless 0xDEADBEEF (by decide)).1
